import Mathlib

/-!
# The pipeline-execution access gate of `app/api/controller/execution/controller.go`

A shallow embedding of `Controller.getRepoCheckPipelineAccess` and of the Go values it
handles, followed by the properties of the gate.

Conventions of the embedding

* A Go pointer `*T` is `Option T`: `none` is the nil pointer.
* A Go `error` interface value is `Option GoError`: `none` is the nil error.
* A Go function returning `(*T, error)` returns the pair of both, so that all four
  combinations of nil and non-nil are values a collaborator can hand back.
* The collaborators (`repoFinder.FindByRef`, `apiauth.CheckRepoState`,
  `apiauth.CheckPipeline`) are not part of the source file. They are arbitrary
  state-passing functions over an arbitrary world state `σ`; the gate threads the world
  through the calls in program order.
* The gate is instrumented with a call trace: one `Call` per collaborator invocation,
  in program order, with the arguments passed and the values returned.
* Dereferencing a nil pointer ends the run with `Outcome.panicked`.
-/

namespace Execution

/-! ## Go errors -/

/-- A Go error value. `new id msg` is an error without a cause (built by `errors.New`, a
sentinel such as `context.Canceled`, or any collaborator error type): `id` stands for the
identity of the value and `msg` is what `Error()` prints. `wrapError msg err` is an error
that has `Unwrap() error` returning `err`, in particular the `*fmt.wrapError` that
`fmt.Errorf` builds for a format with one `%w` verb. -/
inductive GoError where
  | new (id : Nat) (msg : String)
  | wrapError (msg : String) (err : GoError)
  deriving DecidableEq, Repr

namespace GoError

/-- The method `Error() string`. -/
def Error : GoError → String
  | new _ msg => msg
  | wrapError msg _ => msg

/-- The function `errors.Unwrap`: the wrapped error, or nil when there is none. -/
def Unwrap : GoError → Option GoError
  | new _ _ => none
  | wrapError _ err => some err

end GoError

/-- The call `fmt.Errorf(pfx + "%w", err)` for a non-nil `err`: a `*fmt.wrapError` whose
message is the format with `%w` replaced by `err.Error()` and whose `Unwrap` is `err`. -/
def fmtErrorfW (pfx : String) (err : GoError) : GoError :=
  GoError.wrapError (pfx ++ err.Error) err

/-- The function `errors.Is(err, target)` for non-nil arguments: `err` or an error of its
`Unwrap` chain equals `target`. -/
def errorsIs : GoError → GoError → Bool
  | GoError.new id msg, target => decide (GoError.new id msg = target)
  | GoError.wrapError msg err, target =>
      decide (GoError.wrapError msg err = target) || errorsIs err target

/-- The sentinel `context.Canceled`. -/
def contextCanceled : GoError := GoError.new 1 "context canceled"

/-- The sentinel `context.DeadlineExceeded`. -/
def contextDeadlineExceeded : GoError := GoError.new 2 "context deadline exceeded"

/-! ## Data model -/

/-- A `context.Context`, by what `ctx.Err()` returns: nil while the context is live,
`context.Canceled` or `context.DeadlineExceeded` once it is done. -/
structure Context where
  err : Option GoError
  deriving DecidableEq, Repr

/-- Modelled from the spec: the declaration of `enum.Permission` is not in the source. The
spec describes an enumerated value naming the operation being attempted (view, execute,
edit, ...); the value is kept by its name. -/
structure Permission where
  name : String
  deriving DecidableEq, Repr

/-- Modelled from the spec: the declaration of `enum.RepoState` is not in the source. The
spec describes an enumerated lifecycle state (active, archived, migrating, ...); the value
is kept by its name. -/
structure RepoState where
  name : String
  deriving DecidableEq, Repr

/-- Modelled from the spec: the declaration of `auth.Session` is not in the source. The
spec describes the authenticated calling principal, which the gate only passes on. -/
structure Session where
  principal : Nat
  deriving DecidableEq, Repr

/-- Modelled from the spec: the declaration of `types.Repository` is not in the source. The
spec gives it at least an identity, a path and a lifecycle state; the gate reads `Path`. -/
structure Repository where
  ID : Int
  Path : String
  State : RepoState
  deriving DecidableEq, Repr

/-- A collaborator interface value the gate stores or passes on without calling it
(`dbtx.Transactor`, `authz.Authorizer`, the stores, ...), by its identity. -/
structure Handle where
  id : Nat
  deriving DecidableEq, Repr

/-- The interface `refcache.RepoFinder`, by the one method the gate calls:
`FindByRef(ctx, repoRef) (*types.Repository, error)`. -/
structure RepoFinder (σ : Type) where
  FindByRef : Context → String → σ → (Option Repository × Option GoError) × σ

/-- The two functions of package `apiauth` the gate calls:
`CheckRepoState(ctx, session, repo, reqPermission, allowedRepoStates...) error` and
`CheckPipeline(ctx, authorizer, session, repoPath, pipelineIdentifier, reqPermission) error`. -/
structure Apiauth (σ : Type) where
  CheckRepoState :
    Context → Option Session → Option Repository → Permission → List RepoState → σ →
      Option GoError × σ
  CheckPipeline :
    Context → Handle → Option Session → String → String → Permission → σ →
      Option GoError × σ

/-- The struct `Controller`. -/
structure Controller (σ : Type) where
  tx : Handle
  authorizer : Handle
  executionStore : Handle
  checkStore : Handle
  canceler : Handle
  commitService : Handle
  triggerer : Handle
  stageStore : Handle
  pipelineStore : Handle
  repoFinder : RepoFinder σ

/-- The constructor `NewController`: every argument is stored in the field of its name. -/
def NewController {σ : Type} (tx authorizer executionStore checkStore canceler commitService
    triggerer stageStore pipelineStore : Handle) (repoFinder : RepoFinder σ) : Controller σ :=
  { tx := tx
    authorizer := authorizer
    executionStore := executionStore
    checkStore := checkStore
    canceler := canceler
    commitService := commitService
    triggerer := triggerer
    stageStore := stageStore
    pipelineStore := pipelineStore
    repoFinder := repoFinder }

/-! ## Runs of the gate -/

/-- How a Go function call ends: it returns its results, or it panics. -/
inductive Outcome (α : Type) where
  | returned (v : α)
  | panicked (reason : String)
  deriving DecidableEq, Repr

/-- One collaborator invocation: the arguments passed and the values returned. -/
inductive Call where
  | FindByRef (ctx : Context) (repoRef : String) (ret : Option Repository × Option GoError)
  | CheckRepoState (ctx : Context) (session : Option Session) (repo : Option Repository)
      (reqPermission : Permission) (allowedRepoStates : List RepoState) (ret : Option GoError)
  | CheckPipeline (ctx : Context) (authorizer : Handle) (session : Option Session)
      (repoPath : String) (pipelineIdentifier : String) (reqPermission : Permission)
      (ret : Option GoError)
  deriving DecidableEq, Repr

/-- The three collaborator entry points. -/
inductive Step where
  | FindByRef
  | CheckRepoState
  | CheckPipeline
  deriving DecidableEq, Repr

namespace Call

/-- The collaborator a call went to. -/
def step : Call → Step
  | FindByRef _ _ _ => Step.FindByRef
  | CheckRepoState _ _ _ _ _ _ => Step.CheckRepoState
  | CheckPipeline _ _ _ _ _ _ _ => Step.CheckPipeline

/-- The error a call returned (nil as `none`). -/
def err : Call → Option GoError
  | FindByRef _ _ ret => ret.2
  | CheckRepoState _ _ _ _ _ ret => ret
  | CheckPipeline _ _ _ _ _ _ ret => ret

/-- The context a call received. -/
def ctx : Call → Context
  | FindByRef c _ _ => c
  | CheckRepoState c _ _ _ _ _ => c
  | CheckPipeline c _ _ _ _ _ _ => c

/-- A call returned success: a nil error, and for `FindByRef` a non-nil repository. -/
def succeeded : Call → Bool
  | FindByRef _ _ ret => ret.1.isSome && ret.2.isNone
  | CheckRepoState _ _ _ _ _ ret => ret.isNone
  | CheckPipeline _ _ _ _ _ _ ret => ret.isNone

end Call

/-- The number of calls of a trace that went to collaborator `s`. -/
def callCount (s : Step) (trace : List Call) : Nat :=
  trace.countP (fun c => decide (c.step = s))

/-- A finished run of the gate: how it ended, the collaborator calls it made in program
order, and the world the collaborators left behind. -/
structure Run (σ : Type) where
  outcome : Outcome (Option Repository × Option GoError)
  trace : List Call
  world : σ

/-- The method `Controller.getRepoCheckPipelineAccess`. -/
def getRepoCheckPipelineAccess {σ : Type} (c : Controller σ) (apiauth : Apiauth σ)
    (ctx : Context) (session : Option Session) (repoRef : String)
    (pipelineIdentifier : String) (reqPermission : Permission)
    (allowedRepoStates : List RepoState) (w0 : σ) : Run σ :=
  -- repo, err := c.repoFinder.FindByRef(ctx, repoRef)
  match c.repoFinder.FindByRef ctx repoRef w0 with
  | ((repo, some err), w1) =>
      -- return nil, fmt.Errorf("failed to find repo by ref: %w", err)
      { outcome := Outcome.returned (none, some (fmtErrorfW "failed to find repo by ref: " err))
        trace := [Call.FindByRef ctx repoRef (repo, some err)]
        world := w1 }
  | ((repo, none), w1) =>
      -- if err := apiauth.CheckRepoState(ctx, session, repo, reqPermission, allowedRepoStates...)
      match apiauth.CheckRepoState ctx session repo reqPermission allowedRepoStates w1 with
      | (some err, w2) =>
          -- return nil, err
          { outcome := Outcome.returned (none, some err)
            trace := [Call.FindByRef ctx repoRef (repo, none),
              Call.CheckRepoState ctx session repo reqPermission allowedRepoStates (some err)]
            world := w2 }
      | (none, w2) =>
          -- the argument repo.Path of the call of CheckPipeline
          match repo with
          | none =>
              { outcome := Outcome.panicked
                  "runtime error: invalid memory address or nil pointer dereference"
                trace := [Call.FindByRef ctx repoRef (none, none),
                  Call.CheckRepoState ctx session none reqPermission allowedRepoStates none]
                world := w2 }
          | some r =>
              -- err = apiauth.CheckPipeline(ctx, c.authorizer, session, repo.Path,
              --   pipelineIdentifier, reqPermission)
              match apiauth.CheckPipeline ctx c.authorizer session r.Path pipelineIdentifier
                  reqPermission w2 with
              | (some err, w3) =>
                  -- return nil, fmt.Errorf("failed to authorize: %w", err)
                  { outcome := Outcome.returned (none, some (fmtErrorfW "failed to authorize: " err))
                    trace := [Call.FindByRef ctx repoRef (some r, none),
                      Call.CheckRepoState ctx session (some r) reqPermission allowedRepoStates none,
                      Call.CheckPipeline ctx c.authorizer session r.Path pipelineIdentifier
                        reqPermission (some err)]
                    world := w3 }
              | (none, w3) =>
                  -- return repo, nil
                  { outcome := Outcome.returned (some r, none)
                    trace := [Call.FindByRef ctx repoRef (some r, none),
                      Call.CheckRepoState ctx session (some r) reqPermission allowedRepoStates none,
                      Call.CheckPipeline ctx c.authorizer session r.Path pipelineIdentifier
                        reqPermission none]
                    world := w3 }

/-! ## Concrete collaborators used to exercise the gate -/

/-- A resolver whose `FindByRef` always returns `ret` and leaves the world alone. -/
def constFinder (ret : Option Repository × Option GoError) : RepoFinder Unit :=
  { FindByRef := fun _ _ w => (ret, w) }

/-- An `apiauth` whose `CheckRepoState` always returns `st` and whose `CheckPipeline` always
returns `pl`. -/
def constApiauth (st pl : Option GoError) : Apiauth Unit :=
  { CheckRepoState := fun _ _ _ _ _ w => (st, w)
    CheckPipeline := fun _ _ _ _ _ _ w => (pl, w) }

/-- A controller around `constFinder ret`; its authorizer has identity 2. -/
def constController (ret : Option Repository × Option GoError) : Controller Unit :=
  NewController ⟨1⟩ ⟨2⟩ ⟨3⟩ ⟨4⟩ ⟨5⟩ ⟨6⟩ ⟨7⟩ ⟨8⟩ ⟨9⟩ (constFinder ret)

/-- A repository whose path differs from the reference it is looked up by. -/
def repo1 : Repository := { ID := 7, Path := "org/repo1", State := ⟨"active"⟩ }

/-- A live context. -/
def liveCtx : Context := { err := none }

/-- A context that is already canceled. -/
def canceledCtx : Context := { err := some contextCanceled }

/-- A session of principal 42. -/
def session1 : Session := { principal := 42 }

/-- The permission to view a pipeline. -/
def permView : Permission := ⟨"pipeline_view"⟩

/-! ## Facts about Go errors -/

/-- An error that wraps `e` is not `e`. -/
theorem wrapError_ne_self (e : GoError) : ∀ msg, GoError.wrapError msg e ≠ e := by
  induction e with
  | new id m => intro msg h; cases h
  | wrapError m inner ih =>
    intro msg h
    injection h with _ hinner
    exact ih m hinner

/-- Every error satisfies `errors.Is` against itself. -/
theorem errorsIs_self (e : GoError) : errorsIs e e = true := by
  cases e <;> simp [errorsIs]

/-- What `errors.Is` finds in an error it still finds once the error is wrapped by
`fmt.Errorf` with `%w`. -/
theorem errorsIs_fmtErrorfW (pfx : String) (e target : GoError)
    (h : errorsIs e target = true) : errorsIs (fmtErrorfW pfx e) target = true := by
  simp [fmtErrorfW, errorsIs, h]

/-- The messages the gate builds for a resolution failure and for an authorization
failure are never the same string. -/
theorem find_msg_ne_authorize_msg (a b : String) :
    "failed to find repo by ref: " ++ a ≠ "failed to authorize: " ++ b := by
  intro h
  have hdata := congrArg String.data h
  simp only [String.data_append] at hdata
  have hchar := congrArg (fun l => l.get? 10) hdata
  simp at hchar

/-! ## The five ways a run can go -/

/-- Every run of the gate is one of five: resolution fails; the state check fails; the
resolver hands back a nil repository without an error and the state check accepts it, so
that reading `repo.Path` panics; authorization fails; all three collaborators succeed. -/
theorem run_cases {σ : Type} (c : Controller σ) (apiauth : Apiauth σ)
    (ctx : Context) (session : Option Session) (repoRef pipelineIdentifier : String)
    (reqPermission : Permission) (allowedRepoStates : List RepoState) (w0 : σ) :
    (∃ repo e w1, c.repoFinder.FindByRef ctx repoRef w0 = ((repo, some e), w1)
      ∧ getRepoCheckPipelineAccess c apiauth ctx session repoRef pipelineIdentifier
          reqPermission allowedRepoStates w0
        = { outcome := Outcome.returned
              (none, some (fmtErrorfW "failed to find repo by ref: " e))
            trace := [Call.FindByRef ctx repoRef (repo, some e)]
            world := w1 })
    ∨ (∃ repo e w1 w2, c.repoFinder.FindByRef ctx repoRef w0 = ((repo, none), w1)
      ∧ apiauth.CheckRepoState ctx session repo reqPermission allowedRepoStates w1
        = (some e, w2)
      ∧ getRepoCheckPipelineAccess c apiauth ctx session repoRef pipelineIdentifier
          reqPermission allowedRepoStates w0
        = { outcome := Outcome.returned (none, some e)
            trace := [Call.FindByRef ctx repoRef (repo, none),
              Call.CheckRepoState ctx session repo reqPermission allowedRepoStates (some e)]
            world := w2 })
    ∨ (∃ w1 w2, c.repoFinder.FindByRef ctx repoRef w0 = ((none, none), w1)
      ∧ apiauth.CheckRepoState ctx session none reqPermission allowedRepoStates w1
        = (none, w2)
      ∧ getRepoCheckPipelineAccess c apiauth ctx session repoRef pipelineIdentifier
          reqPermission allowedRepoStates w0
        = { outcome := Outcome.panicked
              "runtime error: invalid memory address or nil pointer dereference"
            trace := [Call.FindByRef ctx repoRef (none, none),
              Call.CheckRepoState ctx session none reqPermission allowedRepoStates none]
            world := w2 })
    ∨ (∃ r e w1 w2 w3, c.repoFinder.FindByRef ctx repoRef w0 = ((some r, none), w1)
      ∧ apiauth.CheckRepoState ctx session (some r) reqPermission allowedRepoStates w1
        = (none, w2)
      ∧ apiauth.CheckPipeline ctx c.authorizer session r.Path pipelineIdentifier
          reqPermission w2 = (some e, w3)
      ∧ getRepoCheckPipelineAccess c apiauth ctx session repoRef pipelineIdentifier
          reqPermission allowedRepoStates w0
        = { outcome := Outcome.returned (none, some (fmtErrorfW "failed to authorize: " e))
            trace := [Call.FindByRef ctx repoRef (some r, none),
              Call.CheckRepoState ctx session (some r) reqPermission allowedRepoStates none,
              Call.CheckPipeline ctx c.authorizer session r.Path pipelineIdentifier
                reqPermission (some e)]
            world := w3 })
    ∨ (∃ r w1 w2 w3, c.repoFinder.FindByRef ctx repoRef w0 = ((some r, none), w1)
      ∧ apiauth.CheckRepoState ctx session (some r) reqPermission allowedRepoStates w1
        = (none, w2)
      ∧ apiauth.CheckPipeline ctx c.authorizer session r.Path pipelineIdentifier
          reqPermission w2 = (none, w3)
      ∧ getRepoCheckPipelineAccess c apiauth ctx session repoRef pipelineIdentifier
          reqPermission allowedRepoStates w0
        = { outcome := Outcome.returned (some r, none)
            trace := [Call.FindByRef ctx repoRef (some r, none),
              Call.CheckRepoState ctx session (some r) reqPermission allowedRepoStates none,
              Call.CheckPipeline ctx c.authorizer session r.Path pipelineIdentifier
                reqPermission none]
            world := w3 }) := by
  unfold getRepoCheckPipelineAccess
  rcases hfind : c.repoFinder.FindByRef ctx repoRef w0 with ⟨⟨repo, err⟩, w1⟩
  cases err with
  | some e => exact Or.inl ⟨repo, e, w1, rfl, rfl⟩
  | none =>
    rcases hstate : apiauth.CheckRepoState ctx session repo reqPermission allowedRepoStates w1
      with ⟨serr, w2⟩
    cases serr with
    | some e =>
      refine Or.inr (Or.inl ⟨repo, e, w1, w2, rfl, hstate, ?_⟩)
      simp [hstate]
    | none =>
      cases repo with
      | none =>
        refine Or.inr (Or.inr (Or.inl ⟨w1, w2, rfl, hstate, ?_⟩))
        simp [hstate]
      | some r =>
        rcases hauth : apiauth.CheckPipeline ctx c.authorizer session r.Path
          pipelineIdentifier reqPermission w2 with ⟨aerr, w3⟩
        cases aerr with
        | some e =>
          refine Or.inr (Or.inr (Or.inr (Or.inl ⟨r, e, w1, w2, w3, rfl, hstate, hauth, ?_⟩)))
          simp [hstate, hauth]
        | none =>
          refine Or.inr (Or.inr (Or.inr (Or.inr ⟨r, w1, w2, w3, rfl, hstate, hauth, ?_⟩)))
          simp [hstate, hauth]

/-- The outcome when `FindByRef` returns the error `e`. -/
theorem resolution_failure_cases {σ : Type} (c : Controller σ) (apiauth : Apiauth σ)
    (ctx : Context) (session : Option Session) (repoRef pipelineIdentifier : String)
    (reqPermission : Permission) (allowedRepoStates : List RepoState) (w0 : σ) (e : GoError)
    (hfind : (c.repoFinder.FindByRef ctx repoRef w0).1.2 = some e) :
    (getRepoCheckPipelineAccess c apiauth ctx session repoRef pipelineIdentifier reqPermission
        allowedRepoStates w0).outcome
      = Outcome.returned (none, some (fmtErrorfW "failed to find repo by ref: " e)) := by
  unfold getRepoCheckPipelineAccess
  rcases hcall : c.repoFinder.FindByRef ctx repoRef w0 with ⟨⟨repo, err⟩, w1⟩
  rw [hcall] at hfind
  simp only at hfind
  subst hfind
  rfl

/-- The outcome when `FindByRef` returns a nil error and `CheckRepoState` the error `e`. -/
theorem state_failure_cases {σ : Type} (c : Controller σ) (apiauth : Apiauth σ)
    (ctx : Context) (session : Option Session) (repoRef pipelineIdentifier : String)
    (reqPermission : Permission) (allowedRepoStates : List RepoState) (w0 w1 : σ)
    (repo : Option Repository) (e : GoError)
    (hfind : c.repoFinder.FindByRef ctx repoRef w0 = ((repo, none), w1))
    (hstate : (apiauth.CheckRepoState ctx session repo reqPermission allowedRepoStates
        w1).1 = some e) :
    (getRepoCheckPipelineAccess c apiauth ctx session repoRef pipelineIdentifier reqPermission
        allowedRepoStates w0).outcome = Outcome.returned (none, some e) := by
  unfold getRepoCheckPipelineAccess
  rw [hfind]
  rcases hcall : apiauth.CheckRepoState ctx session repo reqPermission allowedRepoStates w1
    with ⟨err, w2⟩
  rw [hcall] at hstate
  simp only at hstate
  subst hstate
  simp [hcall]

/-- The outcome when resolution and state check succeed and `CheckPipeline` returns the
error `e`. -/
theorem authorization_failure_cases {σ : Type} (c : Controller σ)
    (apiauth : Apiauth σ) (ctx : Context) (session : Option Session)
    (repoRef pipelineIdentifier : String) (reqPermission : Permission)
    (allowedRepoStates : List RepoState) (w0 w1 w2 : σ) (r : Repository) (e : GoError)
    (hfind : c.repoFinder.FindByRef ctx repoRef w0 = ((some r, none), w1))
    (hstate : apiauth.CheckRepoState ctx session (some r) reqPermission allowedRepoStates w1
      = (none, w2))
    (hauth : (apiauth.CheckPipeline ctx c.authorizer session r.Path pipelineIdentifier
        reqPermission w2).1 = some e) :
    (getRepoCheckPipelineAccess c apiauth ctx session repoRef pipelineIdentifier reqPermission
        allowedRepoStates w0).outcome
      = Outcome.returned (none, some (fmtErrorfW "failed to authorize: " e)) := by
  unfold getRepoCheckPipelineAccess
  rw [hfind]
  simp only
  rw [hstate]
  rcases hcall : apiauth.CheckPipeline ctx c.authorizer session r.Path pipelineIdentifier
    reqPermission w2 with ⟨err, w3⟩
  rw [hcall] at hauth
  simp only at hauth
  subst hauth
  simp [hcall]

/-! ## Failure of the resolution step -/

/-- C1: whenever `FindByRef` returns a non-nil error `e` (whatever repository pointer comes
with it), the gate returns a nil repository together with the non-nil resolution error
`fmt.Errorf("failed to find repo by ref: %w", e)`, and neither `CheckRepoState` nor
`CheckPipeline` is invoked. -/
theorem resolution_failure_short_circuits {σ : Type} (c : Controller σ) (apiauth : Apiauth σ)
    (ctx : Context) (session : Option Session) (repoRef pipelineIdentifier : String)
    (reqPermission : Permission) (allowedRepoStates : List RepoState) (w0 : σ) (e : GoError)
    (hfind : (c.repoFinder.FindByRef ctx repoRef w0).1.2 = some e) :
    (getRepoCheckPipelineAccess c apiauth ctx session repoRef pipelineIdentifier reqPermission
        allowedRepoStates w0).outcome
      = Outcome.returned (none, some (fmtErrorfW "failed to find repo by ref: " e))
    ∧ callCount Step.CheckRepoState
        (getRepoCheckPipelineAccess c apiauth ctx session repoRef pipelineIdentifier
          reqPermission allowedRepoStates w0).trace = 0
    ∧ callCount Step.CheckPipeline
        (getRepoCheckPipelineAccess c apiauth ctx session repoRef pipelineIdentifier
          reqPermission allowedRepoStates w0).trace = 0 := by
  unfold getRepoCheckPipelineAccess
  rcases hcall : c.repoFinder.FindByRef ctx repoRef w0 with ⟨⟨repo, err⟩, w1⟩
  rw [hcall] at hfind
  simp only at hfind
  subst hfind
  simp [callCount, Call.step]

/-- The resolver reports an error and hands back a repository all the same: the gate
returns no repository, the wrapped error, and calls nothing else. -/
theorem resolution_failure_short_circuits_witness :
    ((constController (some repo1, some (GoError.new 10 "not found"))).repoFinder.FindByRef
        liveCtx "missing/repo" ()).1.2 = some (GoError.new 10 "not found")
    ∧ (getRepoCheckPipelineAccess (constController (some repo1, some (GoError.new 10 "not found")))
        (constApiauth none none) liveCtx (some session1) "missing/repo" "pipe" permView
        [] ()).outcome
      = Outcome.returned (none,
          some (fmtErrorfW "failed to find repo by ref: " (GoError.new 10 "not found")))
    ∧ callCount Step.CheckRepoState
        (getRepoCheckPipelineAccess (constController (some repo1, some (GoError.new 10 "not found")))
          (constApiauth none none) liveCtx (some session1) "missing/repo" "pipe" permView
          [] ()).trace = 0
    ∧ callCount Step.CheckPipeline
        (getRepoCheckPipelineAccess (constController (some repo1, some (GoError.new 10 "not found")))
          (constApiauth none none) liveCtx (some session1) "missing/repo" "pipe" permView
          [] ()).trace = 0 :=
  ⟨rfl, resolution_failure_short_circuits _ _ _ _ _ _ _ _ _ _ rfl⟩

/-! ## Failure of the state check -/

/-- C2: whenever `FindByRef` succeeds with repository `r` and
`CheckRepoState(ctx, session, r, reqPermission, allowedRepoStates...)` returns a non-nil
error `e`, the gate returns a nil repository together with `e`, the state checker's own
error, and `CheckPipeline` is never invoked. -/
theorem state_violation_short_circuits {σ : Type} (c : Controller σ) (apiauth : Apiauth σ)
    (ctx : Context) (session : Option Session) (repoRef pipelineIdentifier : String)
    (reqPermission : Permission) (allowedRepoStates : List RepoState) (w0 w1 : σ)
    (r : Repository) (e : GoError)
    (hfind : c.repoFinder.FindByRef ctx repoRef w0 = ((some r, none), w1))
    (hstate : (apiauth.CheckRepoState ctx session (some r) reqPermission allowedRepoStates
        w1).1 = some e) :
    (getRepoCheckPipelineAccess c apiauth ctx session repoRef pipelineIdentifier reqPermission
        allowedRepoStates w0).outcome = Outcome.returned (none, some e)
    ∧ callCount Step.CheckPipeline
        (getRepoCheckPipelineAccess c apiauth ctx session repoRef pipelineIdentifier
          reqPermission allowedRepoStates w0).trace = 0 := by
  unfold getRepoCheckPipelineAccess
  rw [hfind]
  rcases hcall : apiauth.CheckRepoState ctx session (some r) reqPermission allowedRepoStates w1
    with ⟨err, w2⟩
  rw [hcall] at hstate
  simp only at hstate
  subst hstate
  simp [hcall, callCount, Call.step]

/-- An archived repository and a state checker that rejects it: the gate returns the state
checker's error and the authorizer is not called. -/
theorem state_violation_short_circuits_witness :
    (constController (some repo1, none)).repoFinder.FindByRef liveCtx "org/repo1" ()
      = ((some repo1, none), ())
    ∧ ((constApiauth (some (GoError.new 20 "repository archived")) none).CheckRepoState
        liveCtx (some session1) (some repo1) permView [⟨"active"⟩] ()).1
      = some (GoError.new 20 "repository archived")
    ∧ (getRepoCheckPipelineAccess (constController (some repo1, none))
        (constApiauth (some (GoError.new 20 "repository archived")) none) liveCtx
        (some session1) "org/repo1" "pipe" permView [⟨"active"⟩] ()).outcome
      = Outcome.returned (none, some (GoError.new 20 "repository archived"))
    ∧ callCount Step.CheckPipeline
        (getRepoCheckPipelineAccess (constController (some repo1, none))
          (constApiauth (some (GoError.new 20 "repository archived")) none) liveCtx
          (some session1) "org/repo1" "pipe" permView [⟨"active"⟩] ()).trace = 0 :=
  ⟨rfl, rfl, state_violation_short_circuits _ _ _ _ _ _ _ _ _ _ _ _ rfl rfl⟩

/-! ## Failure of the authorization step -/

/-- C3: whenever `FindByRef` succeeds with repository `r`, `CheckRepoState` returns nil
and `CheckPipeline` returns a non-nil error `e`, the gate returns the non-nil authorization
error `fmt.Errorf("failed to authorize: %w", e)` and the returned repository is nil, not
the resolved repository `r`. -/
theorem authorization_failure_returns_no_repo {σ : Type} (c : Controller σ)
    (apiauth : Apiauth σ) (ctx : Context) (session : Option Session)
    (repoRef pipelineIdentifier : String) (reqPermission : Permission)
    (allowedRepoStates : List RepoState) (w0 w1 w2 : σ) (r : Repository) (e : GoError)
    (hfind : c.repoFinder.FindByRef ctx repoRef w0 = ((some r, none), w1))
    (hstate : apiauth.CheckRepoState ctx session (some r) reqPermission allowedRepoStates w1
      = (none, w2))
    (hauth : (apiauth.CheckPipeline ctx c.authorizer session r.Path pipelineIdentifier
        reqPermission w2).1 = some e) :
    (getRepoCheckPipelineAccess c apiauth ctx session repoRef pipelineIdentifier reqPermission
        allowedRepoStates w0).outcome
      = Outcome.returned (none, some (fmtErrorfW "failed to authorize: " e))
    ∧ ∀ g, (getRepoCheckPipelineAccess c apiauth ctx session repoRef pipelineIdentifier
        reqPermission allowedRepoStates w0).outcome ≠ Outcome.returned (some r, g) := by
  unfold getRepoCheckPipelineAccess
  rw [hfind]
  simp only
  rw [hstate]
  rcases hcall : apiauth.CheckPipeline ctx c.authorizer session r.Path pipelineIdentifier
    reqPermission w2 with ⟨err, w3⟩
  rw [hcall] at hauth
  simp only at hauth
  subst hauth
  simp [hcall]

/-- An active repository and an authorizer that refuses the session: the gate returns the
wrapped authorizer error and no repository. -/
theorem authorization_failure_returns_no_repo_witness :
    (constController (some repo1, none)).repoFinder.FindByRef liveCtx "org/repo1" ()
      = ((some repo1, none), ())
    ∧ (constApiauth none (some (GoError.new 30 "forbidden"))).CheckRepoState liveCtx
        (some session1) (some repo1) permView [] () = (none, ())
    ∧ ((constApiauth none (some (GoError.new 30 "forbidden"))).CheckPipeline liveCtx
        (constController (some repo1, none)).authorizer (some session1) repo1.Path "pipe"
        permView ()).1 = some (GoError.new 30 "forbidden")
    ∧ (getRepoCheckPipelineAccess (constController (some repo1, none))
        (constApiauth none (some (GoError.new 30 "forbidden"))) liveCtx (some session1)
        "org/repo1" "pipe" permView [] ()).outcome
      = Outcome.returned
          (none, some (fmtErrorfW "failed to authorize: " (GoError.new 30 "forbidden")))
    ∧ ∀ g, (getRepoCheckPipelineAccess (constController (some repo1, none))
        (constApiauth none (some (GoError.new 30 "forbidden"))) liveCtx (some session1)
        "org/repo1" "pipe" permView [] ()).outcome ≠ Outcome.returned (some repo1, g) :=
  ⟨rfl, rfl, rfl,
    authorization_failure_returns_no_repo _ _ _ _ _ _ _ _ _ _ _ _ _ rfl rfl rfl⟩

/-! ## Success -/

/-- C4: whenever `FindByRef` returns repository `r` with a nil error, `CheckRepoState`
returns nil and `CheckPipeline` returns nil, the gate returns exactly `r`, the value the
resolver produced, and a nil error. -/
theorem success_returns_resolved_repo {σ : Type} (c : Controller σ) (apiauth : Apiauth σ)
    (ctx : Context) (session : Option Session) (repoRef pipelineIdentifier : String)
    (reqPermission : Permission) (allowedRepoStates : List RepoState) (w0 w1 w2 : σ)
    (r : Repository)
    (hfind : c.repoFinder.FindByRef ctx repoRef w0 = ((some r, none), w1))
    (hstate : apiauth.CheckRepoState ctx session (some r) reqPermission allowedRepoStates w1
      = (none, w2))
    (hauth : (apiauth.CheckPipeline ctx c.authorizer session r.Path pipelineIdentifier
        reqPermission w2).1 = none) :
    (getRepoCheckPipelineAccess c apiauth ctx session repoRef pipelineIdentifier reqPermission
        allowedRepoStates w0).outcome = Outcome.returned (some r, none) := by
  unfold getRepoCheckPipelineAccess
  rw [hfind]
  simp only
  rw [hstate]
  rcases hcall : apiauth.CheckPipeline ctx c.authorizer session r.Path pipelineIdentifier
    reqPermission w2 with ⟨err, w3⟩
  rw [hcall] at hauth
  simp only at hauth
  subst hauth
  simp [hcall]

/-- All three collaborators succeed: the gate returns the resolver's repository, with its
identity, path and state as the resolver gave them. -/
theorem success_returns_resolved_repo_witness :
    (constController (some repo1, none)).repoFinder.FindByRef liveCtx "org/repo1" ()
      = ((some repo1, none), ())
    ∧ (constApiauth none none).CheckRepoState liveCtx (some session1) (some repo1) permView
        [] () = (none, ())
    ∧ ((constApiauth none none).CheckPipeline liveCtx
        (constController (some repo1, none)).authorizer (some session1) repo1.Path "pipe"
        permView ()).1 = none
    ∧ (getRepoCheckPipelineAccess (constController (some repo1, none)) (constApiauth none none)
        liveCtx (some session1) "org/repo1" "pipe" permView [] ()).outcome
      = Outcome.returned (some { ID := 7, Path := "org/repo1", State := ⟨"active"⟩ }, none) :=
  ⟨rfl, rfl, rfl, success_returns_resolved_repo _ _ _ _ _ _ _ _ _ _ _ _ rfl rfl rfl⟩

/-! ## The invariant of the access gate -/

/-- C5, as stated, fails: a resolver that returns a nil repository with a nil error, and a
state checker that accepts it, make the gate panic on `repo.Path` after the calls
`FindByRef`, `CheckRepoState`. That run returns no repository, and it does not return a
nil repository with a non-nil error either. -/
theorem gate_invariant_fails_on_nil_repo :
    (getRepoCheckPipelineAccess (constController (none, none)) (constApiauth none none)
        liveCtx (some session1) "org/repo1" "pipe" permView [] ()).outcome
      = Outcome.panicked "runtime error: invalid memory address or nil pointer dereference"
    ∧ (getRepoCheckPipelineAccess (constController (none, none)) (constApiauth none none)
        liveCtx (some session1) "org/repo1" "pipe" permView [] ()).trace.map Call.step
      = [Step.FindByRef, Step.CheckRepoState]
    ∧ (¬ ∃ r, (getRepoCheckPipelineAccess (constController (none, none))
        (constApiauth none none) liveCtx (some session1) "org/repo1" "pipe" permView
        [] ()).outcome = Outcome.returned (some r, none))
    ∧ (¬ ∃ e, (getRepoCheckPipelineAccess (constController (none, none))
        (constApiauth none none) liveCtx (some session1) "org/repo1" "pipe" permView
        [] ()).outcome = Outcome.returned (none, some e)) := by
  have hrun : (getRepoCheckPipelineAccess (constController (none, none))
      (constApiauth none none) liveCtx (some session1) "org/repo1" "pipe" permView [] ())
      = { outcome := Outcome.panicked
            "runtime error: invalid memory address or nil pointer dereference"
          trace := [Call.FindByRef liveCtx "org/repo1" (none, none),
            Call.CheckRepoState liveCtx (some session1) none permView [] none]
          world := () } := rfl
  rw [hrun]
  refine ⟨rfl, rfl, ?_, ?_⟩
  · rintro ⟨r, h⟩
    cases h
  · rintro ⟨e, h⟩
    cases h

/-- C5, amended: for every input and every collaborator behaviour, whenever the gate
returns a repository (non-nil repository, nil error) the call trace of that run is exactly
`FindByRef`, `CheckRepoState`, `CheckPipeline`, each invoked once in that order and each
having returned success; in every other run the gate returns a nil repository and a
non-nil error, with one exception: the run in which `FindByRef` returns a nil repository
together with a nil error and `CheckRepoState` accepts that nil repository. That run
panics on `repo.Path` after the calls `FindByRef`, `CheckRepoState` and returns
nothing. -/
theorem gate_invariant {σ : Type} (c : Controller σ) (apiauth : Apiauth σ)
    (ctx : Context) (session : Option Session) (repoRef pipelineIdentifier : String)
    (reqPermission : Permission) (allowedRepoStates : List RepoState) (w0 : σ) :
    (∀ r, (getRepoCheckPipelineAccess c apiauth ctx session repoRef pipelineIdentifier
          reqPermission allowedRepoStates w0).outcome = Outcome.returned (some r, none) →
        (getRepoCheckPipelineAccess c apiauth ctx session repoRef pipelineIdentifier
            reqPermission allowedRepoStates w0).trace.map Call.step
          = [Step.FindByRef, Step.CheckRepoState, Step.CheckPipeline]
        ∧ ∀ call ∈ (getRepoCheckPipelineAccess c apiauth ctx session repoRef
            pipelineIdentifier reqPermission allowedRepoStates w0).trace,
            call.succeeded = true)
    ∧ (¬ ((c.repoFinder.FindByRef ctx repoRef w0).1 = (none, none)
          ∧ (apiauth.CheckRepoState ctx session none reqPermission allowedRepoStates
              (c.repoFinder.FindByRef ctx repoRef w0).2).1 = none) →
        (¬ ∃ r, (getRepoCheckPipelineAccess c apiauth ctx session repoRef pipelineIdentifier
          reqPermission allowedRepoStates w0).outcome = Outcome.returned (some r, none)) →
        ∃ e, (getRepoCheckPipelineAccess c apiauth ctx session repoRef pipelineIdentifier
          reqPermission allowedRepoStates w0).outcome = Outcome.returned (none, some e))
    ∧ ((c.repoFinder.FindByRef ctx repoRef w0).1 = (none, none) →
        (apiauth.CheckRepoState ctx session none reqPermission allowedRepoStates
          (c.repoFinder.FindByRef ctx repoRef w0).2).1 = none →
        (getRepoCheckPipelineAccess c apiauth ctx session repoRef pipelineIdentifier
            reqPermission allowedRepoStates w0).outcome
          = Outcome.panicked "runtime error: invalid memory address or nil pointer dereference"
        ∧ (getRepoCheckPipelineAccess c apiauth ctx session repoRef pipelineIdentifier
            reqPermission allowedRepoStates w0).trace.map Call.step
          = [Step.FindByRef, Step.CheckRepoState]) := by
  rcases run_cases c apiauth ctx session repoRef pipelineIdentifier reqPermission
      allowedRepoStates w0 with
    ⟨repo, e, w1, hfind, hrun⟩ | ⟨repo, e, w1, w2, hfind, hstate, hrun⟩
    | ⟨w1, w2, hfind, hstate, hrun⟩
    | ⟨r, e, w1, w2, w3, hfind, _, _, hrun⟩ | ⟨r, w1, w2, w3, hfind, _, _, hrun⟩
  · rw [hrun, hfind]
    refine ⟨fun r h => (by cases h), fun _ _ => ⟨_, rfl⟩, fun h => ?_⟩
    cases h
  · rw [hrun, hfind]
    refine ⟨fun r h => (by cases h), fun _ _ => ⟨_, rfl⟩, fun h hnil => ?_⟩
    simp only [Prod.mk.injEq, and_true] at h
    subst h
    rw [hstate] at hnil
    cases hnil
  · rw [hrun, hfind]
    refine ⟨fun r h => (by cases h), fun hex _ => ?_, fun _ _ => ⟨rfl, rfl⟩⟩
    exact absurd ⟨rfl, by rw [hstate]⟩ hex
  · rw [hrun, hfind]
    refine ⟨fun r h => (by cases h), fun _ _ => ⟨_, rfl⟩, fun h => ?_⟩
    cases h
  · rw [hrun, hfind]
    refine ⟨fun r' _ => ⟨rfl, ?_⟩, fun _ h => absurd ⟨r, rfl⟩ h, fun h => ?_⟩
    · intro call hcall
      simp only [List.mem_cons, List.mem_singleton, List.not_mem_nil, or_false] at hcall
      rcases hcall with h | h | h <;> subst h <;> rfl
    · cases h

/-- Three runs. A fully authorized run returns the repository after exactly one successful
call of each collaborator, in order. A resolver that returns a nil repository with a nil
error, followed by a state checker that rejects it, is not the excepted run: the gate
returns a nil repository and the state checker's error. The same resolver followed by a
state checker that accepts the nil repository is the excepted run: the gate panics after
two calls. -/
theorem gate_invariant_witness :
    ((getRepoCheckPipelineAccess (constController (some repo1, none)) (constApiauth none none)
          liveCtx (some session1) "org/repo1" "pipe" permView [] ()).outcome
        = Outcome.returned (some repo1, none)
      ∧ (getRepoCheckPipelineAccess (constController (some repo1, none))
          (constApiauth none none) liveCtx (some session1) "org/repo1" "pipe" permView
          [] ()).trace.map Call.step
        = [Step.FindByRef, Step.CheckRepoState, Step.CheckPipeline]
      ∧ ∀ call ∈ (getRepoCheckPipelineAccess (constController (some repo1, none))
          (constApiauth none none) liveCtx (some session1) "org/repo1" "pipe" permView
          [] ()).trace, call.succeeded = true)
    ∧ (((constController (none, none)).repoFinder.FindByRef liveCtx "org/repo1" ()).1
        = (none, none)
      ∧ ((constApiauth (some (GoError.new 21 "repository is nil")) none).CheckRepoState
          liveCtx (some session1) none permView [] ()).1
        = some (GoError.new 21 "repository is nil")
      ∧ ∃ e, (getRepoCheckPipelineAccess (constController (none, none))
          (constApiauth (some (GoError.new 21 "repository is nil")) none) liveCtx
          (some session1) "org/repo1" "pipe" permView [] ()).outcome
        = Outcome.returned (none, some e))
    ∧ ((getRepoCheckPipelineAccess (constController (none, none)) (constApiauth none none)
          liveCtx (some session1) "org/repo1" "pipe" permView [] ()).outcome
        = Outcome.panicked "runtime error: invalid memory address or nil pointer dereference"
      ∧ (getRepoCheckPipelineAccess (constController (none, none)) (constApiauth none none)
          liveCtx (some session1) "org/repo1" "pipe" permView [] ()).trace.map Call.step
        = [Step.FindByRef, Step.CheckRepoState]) :=
  ⟨⟨rfl, (gate_invariant (constController (some repo1, none)) (constApiauth none none)
      liveCtx (some session1) "org/repo1" "pipe" permView [] ()).1 repo1 rfl⟩,
    ⟨rfl, rfl, (gate_invariant (constController (none, none))
      (constApiauth (some (GoError.new 21 "repository is nil")) none) liveCtx
      (some session1) "org/repo1" "pipe" permView [] ()).2.1
        (fun h => by cases h.2)
        (fun h => by
          rcases h with ⟨r, hr⟩
          cases hr)⟩,
    (gate_invariant (constController (none, none)) (constApiauth none none) liveCtx
      (some session1) "org/repo1" "pipe" permView [] ()).2.2 rfl rfl⟩

/-! ## Added context -/

/-- C6, as stated, fails: when `CheckRepoState` fails, the gate returns the state checker's
bare error. Here the state checker returns the error "repository archived", and the gate
returns that very value: its message carries no added context and it wraps nothing. -/
theorem state_error_is_returned_bare :
    ((constApiauth (some (GoError.new 20 "repository archived")) none).CheckRepoState
        liveCtx (some session1) (some repo1) permView [⟨"active"⟩] ()).1
      = some (GoError.new 20 "repository archived")
    ∧ (getRepoCheckPipelineAccess (constController (some repo1, none))
        (constApiauth (some (GoError.new 20 "repository archived")) none) liveCtx
        (some session1) "org/repo1" "pipe" permView [⟨"active"⟩] ()).outcome
      = Outcome.returned (none, some (GoError.new 20 "repository archived"))
    ∧ (GoError.new 20 "repository archived").Error = "repository archived"
    ∧ (GoError.new 20 "repository archived").Unwrap = none :=
  ⟨rfl, rfl, rfl, rfl⟩

/-- C6, amended: for a failure of `FindByRef` or of `CheckPipeline` with error `e`, the
error the gate returns is `e` wrapped with a message that starts with the failed step
("failed to find repo by ref: " for resolution, "failed to authorize: " for authorization)
and is never the bare `e`; no message of the first kind equals one of the second kind. For
a failure of `CheckRepoState` with error `e`, the gate returns `e` itself, with no added
context. -/
theorem failure_context {σ : Type} (c : Controller σ) (apiauth : Apiauth σ)
    (ctx : Context) (session : Option Session) (repoRef pipelineIdentifier : String)
    (reqPermission : Permission) (allowedRepoStates : List RepoState) (w0 : σ) :
    (∀ e, (c.repoFinder.FindByRef ctx repoRef w0).1.2 = some e →
      (getRepoCheckPipelineAccess c apiauth ctx session repoRef pipelineIdentifier
          reqPermission allowedRepoStates w0).outcome
        = Outcome.returned
            (none, some (GoError.wrapError ("failed to find repo by ref: " ++ e.Error) e))
      ∧ GoError.wrapError ("failed to find repo by ref: " ++ e.Error) e ≠ e)
    ∧ (∀ r w1 w2 e, c.repoFinder.FindByRef ctx repoRef w0 = ((some r, none), w1) →
      apiauth.CheckRepoState ctx session (some r) reqPermission allowedRepoStates w1
        = (none, w2) →
      (apiauth.CheckPipeline ctx c.authorizer session r.Path pipelineIdentifier
        reqPermission w2).1 = some e →
      (getRepoCheckPipelineAccess c apiauth ctx session repoRef pipelineIdentifier
          reqPermission allowedRepoStates w0).outcome
        = Outcome.returned
            (none, some (GoError.wrapError ("failed to authorize: " ++ e.Error) e))
      ∧ GoError.wrapError ("failed to authorize: " ++ e.Error) e ≠ e)
    ∧ (∀ e1 e2, (fmtErrorfW "failed to find repo by ref: " e1).Error
        ≠ (fmtErrorfW "failed to authorize: " e2).Error)
    ∧ (∀ repo w1 e, c.repoFinder.FindByRef ctx repoRef w0 = ((repo, none), w1) →
      (apiauth.CheckRepoState ctx session repo reqPermission allowedRepoStates w1).1
        = some e →
      (getRepoCheckPipelineAccess c apiauth ctx session repoRef pipelineIdentifier
          reqPermission allowedRepoStates w0).outcome = Outcome.returned (none, some e)) := by
  refine ⟨?_, ?_, ?_, ?_⟩
  · intro e he
    exact ⟨(resolution_failure_cases c apiauth ctx session repoRef pipelineIdentifier
      reqPermission allowedRepoStates w0 e he), wrapError_ne_self _ _⟩
  · intro r w1 w2 e hfind hstate hauth
    exact ⟨(authorization_failure_cases c apiauth ctx session repoRef pipelineIdentifier
      reqPermission allowedRepoStates w0 w1 w2 r e hfind hstate hauth), wrapError_ne_self _ _⟩
  · intro e1 e2
    exact find_msg_ne_authorize_msg _ _
  · intro repo w1 e hfind hstate
    exact state_failure_cases c apiauth ctx session repoRef pipelineIdentifier
      reqPermission allowedRepoStates w0 w1 repo e hfind hstate

/-- Each kind of failure at concrete collaborators: the resolver error "not found" and the
authorizer error "forbidden" come back wrapped, the state checker error "repository
archived" comes back as it is. -/
theorem failure_context_witness :
    ((getRepoCheckPipelineAccess
          (constController (none, some (GoError.new 10 "not found"))) (constApiauth none none)
          liveCtx (some session1) "missing/repo" "pipe" permView [] ()).outcome
        = Outcome.returned (none, some (GoError.wrapError
            ("failed to find repo by ref: " ++ (GoError.new 10 "not found").Error)
            (GoError.new 10 "not found")))
      ∧ GoError.wrapError ("failed to find repo by ref: " ++ (GoError.new 10 "not found").Error)
          (GoError.new 10 "not found") ≠ GoError.new 10 "not found")
    ∧ ((getRepoCheckPipelineAccess (constController (some repo1, none))
          (constApiauth none (some (GoError.new 30 "forbidden"))) liveCtx (some session1)
          "org/repo1" "pipe" permView [] ()).outcome
        = Outcome.returned (none, some (GoError.wrapError
            ("failed to authorize: " ++ (GoError.new 30 "forbidden").Error)
            (GoError.new 30 "forbidden")))
      ∧ GoError.wrapError ("failed to authorize: " ++ (GoError.new 30 "forbidden").Error)
          (GoError.new 30 "forbidden") ≠ GoError.new 30 "forbidden")
    ∧ (getRepoCheckPipelineAccess (constController (some repo1, none))
          (constApiauth (some (GoError.new 20 "repository archived")) none) liveCtx
          (some session1) "org/repo1" "pipe" permView [] ()).outcome
        = Outcome.returned (none, some (GoError.new 20 "repository archived")) :=
  ⟨(failure_context (constController (none, some (GoError.new 10 "not found")))
      (constApiauth none none) liveCtx (some session1) "missing/repo" "pipe" permView
      [] ()).1 _ rfl,
    (failure_context (constController (some repo1, none))
      (constApiauth none (some (GoError.new 30 "forbidden"))) liveCtx (some session1)
      "org/repo1" "pipe" permView [] ()).2.1 _ _ _ _ rfl rfl rfl,
    (failure_context (constController (some repo1, none))
      (constApiauth (some (GoError.new 20 "repository archived")) none) liveCtx
      (some session1) "org/repo1" "pipe" permView [] ()).2.2.2 _ _ _ rfl rfl⟩

/-! ## What the authorization error reveals -/

/-- C7, as stated, fails: with the same caller inputs, an authorizer that fails with
"forbidden" and one that fails with "pipeline not found" make the gate return two
different errors. Their messages differ and so do the errors they unwrap to. -/
theorem authorization_error_depends_on_cause :
    (getRepoCheckPipelineAccess (constController (some repo1, none))
        (constApiauth none (some (GoError.new 30 "forbidden"))) liveCtx (some session1)
        "org/repo1" "pipe" permView [] ()).outcome
      = Outcome.returned (none,
          some (GoError.wrapError "failed to authorize: forbidden" (GoError.new 30 "forbidden")))
    ∧ (getRepoCheckPipelineAccess (constController (some repo1, none))
        (constApiauth none (some (GoError.new 31 "pipeline not found"))) liveCtx
        (some session1) "org/repo1" "pipe" permView [] ()).outcome
      = Outcome.returned (none,
          some (GoError.wrapError "failed to authorize: pipeline not found"
            (GoError.new 31 "pipeline not found")))
    ∧ (GoError.wrapError "failed to authorize: forbidden" (GoError.new 30 "forbidden")).Error
      ≠ (GoError.wrapError "failed to authorize: pipeline not found"
          (GoError.new 31 "pipeline not found")).Error
    ∧ (GoError.wrapError "failed to authorize: forbidden" (GoError.new 30 "forbidden")).Unwrap
      ≠ (GoError.wrapError "failed to authorize: pipeline not found"
          (GoError.new 31 "pipeline not found")).Unwrap := by
  refine ⟨rfl, rfl, ?_, ?_⟩
  · simp [GoError.Error]
  · simp [GoError.Unwrap]

/-- C7, amended: for any two runs with identical caller inputs in which resolution and the
state check succeed and `CheckPipeline` fails, once with error `e1` and once with error
`e2`, the gate returns in both runs a nil repository and the authorizer's error wrapped
under the same fixed text "failed to authorize: ": the message is that text followed by the
message of the authorizer's error, and the error unwraps to the authorizer's error. The
two returned errors are the same exactly when the authorizer reported the same error. -/
theorem authorization_error_carries_cause {σ τ : Type} (c1 : Controller σ)
    (apiauth1 : Apiauth σ) (c2 : Controller τ) (apiauth2 : Apiauth τ) (ctx : Context)
    (session : Option Session) (repoRef pipelineIdentifier : String)
    (reqPermission : Permission) (allowedRepoStates : List RepoState)
    (v0 v1 v2 : σ) (w0 w1 w2 : τ) (r1 r2 : Repository) (e1 e2 : GoError)
    (hfind1 : c1.repoFinder.FindByRef ctx repoRef v0 = ((some r1, none), v1))
    (hstate1 : apiauth1.CheckRepoState ctx session (some r1) reqPermission allowedRepoStates
      v1 = (none, v2))
    (hauth1 : (apiauth1.CheckPipeline ctx c1.authorizer session r1.Path pipelineIdentifier
      reqPermission v2).1 = some e1)
    (hfind2 : c2.repoFinder.FindByRef ctx repoRef w0 = ((some r2, none), w1))
    (hstate2 : apiauth2.CheckRepoState ctx session (some r2) reqPermission allowedRepoStates
      w1 = (none, w2))
    (hauth2 : (apiauth2.CheckPipeline ctx c2.authorizer session r2.Path pipelineIdentifier
      reqPermission w2).1 = some e2) :
    (getRepoCheckPipelineAccess c1 apiauth1 ctx session repoRef pipelineIdentifier
        reqPermission allowedRepoStates v0).outcome
      = Outcome.returned (none, some (GoError.wrapError ("failed to authorize: " ++ e1.Error) e1))
    ∧ (getRepoCheckPipelineAccess c2 apiauth2 ctx session repoRef pipelineIdentifier
        reqPermission allowedRepoStates w0).outcome
      = Outcome.returned (none, some (GoError.wrapError ("failed to authorize: " ++ e2.Error) e2))
    ∧ ((getRepoCheckPipelineAccess c1 apiauth1 ctx session repoRef pipelineIdentifier
          reqPermission allowedRepoStates v0).outcome
        = (getRepoCheckPipelineAccess c2 apiauth2 ctx session repoRef pipelineIdentifier
          reqPermission allowedRepoStates w0).outcome ↔ e1 = e2) := by
  have h1 := authorization_failure_cases c1 apiauth1 ctx session repoRef pipelineIdentifier
    reqPermission allowedRepoStates v0 v1 v2 r1 e1 hfind1 hstate1 hauth1
  have h2 := authorization_failure_cases c2 apiauth2 ctx session repoRef pipelineIdentifier
    reqPermission allowedRepoStates w0 w1 w2 r2 e2 hfind2 hstate2 hauth2
  refine ⟨h1, h2, ?_⟩
  rw [h1, h2]
  constructor
  · intro h
    simp only [fmtErrorfW, Outcome.returned.injEq, Prod.mk.injEq, Option.some.injEq,
      GoError.wrapError.injEq, true_and] at h
    exact h.2
  · intro h
    rw [h]

/-- Two runs with the same caller inputs whose authorizers fail with "forbidden" and with
"pipeline not found": both returned errors start with "failed to authorize: " and carry
the authorizer's error; they are equal only if the two authorizer errors are. -/
theorem authorization_error_carries_cause_witness :
    (getRepoCheckPipelineAccess (constController (some repo1, none))
        (constApiauth none (some (GoError.new 30 "forbidden"))) liveCtx (some session1)
        "org/repo1" "pipe" permView [] ()).outcome
      = Outcome.returned (none, some (GoError.wrapError
          ("failed to authorize: " ++ (GoError.new 30 "forbidden").Error)
          (GoError.new 30 "forbidden")))
    ∧ (getRepoCheckPipelineAccess (constController (some repo1, none))
        (constApiauth none (some (GoError.new 31 "pipeline not found"))) liveCtx
        (some session1) "org/repo1" "pipe" permView [] ()).outcome
      = Outcome.returned (none, some (GoError.wrapError
          ("failed to authorize: " ++ (GoError.new 31 "pipeline not found").Error)
          (GoError.new 31 "pipeline not found")))
    ∧ ((getRepoCheckPipelineAccess (constController (some repo1, none))
          (constApiauth none (some (GoError.new 30 "forbidden"))) liveCtx (some session1)
          "org/repo1" "pipe" permView [] ()).outcome
        = (getRepoCheckPipelineAccess (constController (some repo1, none))
          (constApiauth none (some (GoError.new 31 "pipeline not found"))) liveCtx
          (some session1) "org/repo1" "pipe" permView [] ()).outcome
      ↔ GoError.new 30 "forbidden" = GoError.new 31 "pipeline not found") :=
  authorization_error_carries_cause (constController (some repo1, none))
    (constApiauth none (some (GoError.new 30 "forbidden")))
    (constController (some repo1, none))
    (constApiauth none (some (GoError.new 31 "pipeline not found"))) liveCtx (some session1)
    "org/repo1" "pipe" permView [] () () () () () () repo1 repo1 _ _ rfl rfl rfl rfl rfl rfl

/-! ## Cancellation -/

/-- C8, as stated, fails: the gate does not look at the context. With a context that is
already canceled and collaborators that succeed all the same, the gate returns the
repository and a nil error. -/
theorem canceled_context_can_succeed :
    canceledCtx.err = some contextCanceled
    ∧ (getRepoCheckPipelineAccess (constController (some repo1, none)) (constApiauth none none)
        canceledCtx (some session1) "org/repo1" "pipe" permView [] ()).outcome
      = Outcome.returned (some repo1, none) :=
  ⟨rfl, rfl⟩

/-- C8, amended: the gate never inspects the context itself. It hands the caller's context
unchanged to every collaborator it calls, and with collaborators that return the same for
two contexts it returns the same result for both. A cancellation reaches the caller
through the collaborators, at whichever step reports it. For every cause `k` (such as the
`ctx.Err()` of a context that is already done): when the failing call is `FindByRef` with
an error `e` in which `errors.Is` finds `k`, the gate returns a nil repository and `e`
wrapped under "failed to find repo by ref: "; when it is `CheckRepoState`, the gate returns
a nil repository and `e` itself; when it is `CheckPipeline`, the gate returns a nil
repository and `e` wrapped under "failed to authorize: "; in each case `errors.Is` finds
`k` in the returned error and the run is not a success. Conversely, when `errors.Is` finds
a cause without a wrapped error of its own (as `context.Canceled` and
`context.DeadlineExceeded` are) in the error the gate returns, it finds it already in the
error of the last collaborator call. -/
theorem cancellation_is_delegated {σ : Type} (c : Controller σ) (apiauth : Apiauth σ)
    (ctx : Context) (session : Option Session) (repoRef pipelineIdentifier : String)
    (reqPermission : Permission) (allowedRepoStates : List RepoState) (w0 : σ) :
    (∀ call ∈ (getRepoCheckPipelineAccess c apiauth ctx session repoRef pipelineIdentifier
        reqPermission allowedRepoStates w0).trace, call.ctx = ctx)
    ∧ (∀ ctx2,
      (∀ ref w, c.repoFinder.FindByRef ctx2 ref w = c.repoFinder.FindByRef ctx ref w) →
      (∀ s r p l w, apiauth.CheckRepoState ctx2 s r p l w
        = apiauth.CheckRepoState ctx s r p l w) →
      (∀ a s path pid p w, apiauth.CheckPipeline ctx2 a s path pid p w
        = apiauth.CheckPipeline ctx a s path pid p w) →
      (getRepoCheckPipelineAccess c apiauth ctx2 session repoRef pipelineIdentifier
          reqPermission allowedRepoStates w0).outcome
        = (getRepoCheckPipelineAccess c apiauth ctx session repoRef pipelineIdentifier
          reqPermission allowedRepoStates w0).outcome)
    ∧ (∀ k e, (c.repoFinder.FindByRef ctx repoRef w0).1.2 = some e →
      errorsIs e k = true →
      (getRepoCheckPipelineAccess c apiauth ctx session repoRef pipelineIdentifier
          reqPermission allowedRepoStates w0).outcome
        = Outcome.returned (none, some (fmtErrorfW "failed to find repo by ref: " e))
      ∧ errorsIs (fmtErrorfW "failed to find repo by ref: " e) k = true)
    ∧ (∀ k repo w1 e, c.repoFinder.FindByRef ctx repoRef w0 = ((repo, none), w1) →
      (apiauth.CheckRepoState ctx session repo reqPermission allowedRepoStates w1).1
        = some e →
      errorsIs e k = true →
      (getRepoCheckPipelineAccess c apiauth ctx session repoRef pipelineIdentifier
          reqPermission allowedRepoStates w0).outcome = Outcome.returned (none, some e)
      ∧ errorsIs e k = true)
    ∧ (∀ k r w1 w2 e, c.repoFinder.FindByRef ctx repoRef w0 = ((some r, none), w1) →
      apiauth.CheckRepoState ctx session (some r) reqPermission allowedRepoStates w1
        = (none, w2) →
      (apiauth.CheckPipeline ctx c.authorizer session r.Path pipelineIdentifier
        reqPermission w2).1 = some e →
      errorsIs e k = true →
      (getRepoCheckPipelineAccess c apiauth ctx session repoRef pipelineIdentifier
          reqPermission allowedRepoStates w0).outcome
        = Outcome.returned (none, some (fmtErrorfW "failed to authorize: " e))
      ∧ errorsIs (fmtErrorfW "failed to authorize: " e) k = true)
    ∧ (∀ id msg p g,
      (getRepoCheckPipelineAccess c apiauth ctx session repoRef pipelineIdentifier
          reqPermission allowedRepoStates w0).outcome = Outcome.returned (p, some g) →
      errorsIs g (GoError.new id msg) = true →
      ∃ e, (getRepoCheckPipelineAccess c apiauth ctx session repoRef pipelineIdentifier
            reqPermission allowedRepoStates w0).trace.getLast?.bind Call.err = some e
        ∧ errorsIs e (GoError.new id msg) = true) := by
  refine ⟨?_, ?_, ?_, ?_, ?_, ?_⟩
  · rcases run_cases c apiauth ctx session repoRef pipelineIdentifier reqPermission
        allowedRepoStates w0 with
      ⟨_, _, _, _, hrun⟩ | ⟨_, _, _, _, _, _, hrun⟩ | ⟨_, _, _, _, hrun⟩
      | ⟨_, _, _, _, _, _, _, _, hrun⟩ | ⟨_, _, _, _, _, _, _, hrun⟩
    all_goals
      rw [hrun]
      simp [Call.ctx]
  · intro ctx2 hF hS hP
    unfold getRepoCheckPipelineAccess
    simp only [hF, hS, hP]
    rcases c.repoFinder.FindByRef ctx repoRef w0 with ⟨⟨repo, err⟩, w1⟩
    cases err with
    | some e => rfl
    | none =>
      simp only
      rcases apiauth.CheckRepoState ctx session repo reqPermission allowedRepoStates w1
        with ⟨serr, w2⟩
      cases serr with
      | some e => rfl
      | none =>
        cases repo with
        | none => rfl
        | some r =>
          simp only
          rcases apiauth.CheckPipeline ctx c.authorizer session r.Path pipelineIdentifier
            reqPermission w2 with ⟨aerr, w3⟩
          cases aerr <;> rfl
  · intro k e hfind hk
    exact ⟨resolution_failure_cases c apiauth ctx session repoRef pipelineIdentifier
      reqPermission allowedRepoStates w0 e hfind, errorsIs_fmtErrorfW _ _ _ hk⟩
  · intro k repo w1 e hfind hstate hk
    exact ⟨state_failure_cases c apiauth ctx session repoRef pipelineIdentifier
      reqPermission allowedRepoStates w0 w1 repo e hfind hstate, hk⟩
  · intro k r w1 w2 e hfind hstate hauth hk
    exact ⟨authorization_failure_cases c apiauth ctx session repoRef pipelineIdentifier
      reqPermission allowedRepoStates w0 w1 w2 r e hfind hstate hauth,
      errorsIs_fmtErrorfW _ _ _ hk⟩
  · intro id msg p g hout hk
    rcases run_cases c apiauth ctx session repoRef pipelineIdentifier reqPermission
        allowedRepoStates w0 with
      ⟨_, e, _, _, hrun⟩ | ⟨_, e, _, _, _, _, hrun⟩ | ⟨_, _, _, _, hrun⟩
      | ⟨_, e, _, _, _, _, _, _, hrun⟩ | ⟨_, _, _, _, _, _, _, hrun⟩
    all_goals
      rw [hrun] at hout ⊢
      cases hout
    · exact ⟨_, rfl, by simpa [fmtErrorfW, errorsIs] using hk⟩
    · exact ⟨_, rfl, hk⟩
    · exact ⟨_, rfl, by simpa [fmtErrorfW, errorsIs] using hk⟩

/-- A canceled context at each step. A resolver that reports the cancellation, wrapped in
an error of its own, gives the wrapped resolver error; a state checker that reports
`context.Canceled` gives that very error; an authorizer that reports it gives the wrapped
authorizer error; `errors.Is` finds `context.Canceled` in each. Every call of the last run
received the canceled context. -/
theorem cancellation_is_delegated_witness :
    canceledCtx.err = some contextCanceled
    ∧ ((getRepoCheckPipelineAccess
          (constController (none, some (GoError.wrapError "find: context canceled"
            contextCanceled)))
          (constApiauth none none) canceledCtx (some session1) "org/repo1" "pipe" permView
          [] ()).outcome
        = Outcome.returned (none, some (fmtErrorfW "failed to find repo by ref: "
            (GoError.wrapError "find: context canceled" contextCanceled)))
      ∧ errorsIs (fmtErrorfW "failed to find repo by ref: "
          (GoError.wrapError "find: context canceled" contextCanceled)) contextCanceled
        = true)
    ∧ ((getRepoCheckPipelineAccess (constController (some repo1, none))
          (constApiauth (some contextCanceled) none) canceledCtx (some session1)
          "org/repo1" "pipe" permView [] ()).outcome
        = Outcome.returned (none, some contextCanceled)
      ∧ errorsIs contextCanceled contextCanceled = true)
    ∧ ((getRepoCheckPipelineAccess (constController (some repo1, none))
          (constApiauth none (some contextCanceled)) canceledCtx (some session1)
          "org/repo1" "pipe" permView [] ()).outcome
        = Outcome.returned (none, some (fmtErrorfW "failed to authorize: " contextCanceled))
      ∧ errorsIs (fmtErrorfW "failed to authorize: " contextCanceled) contextCanceled = true)
    ∧ (∀ call ∈ (getRepoCheckPipelineAccess (constController (some repo1, none))
          (constApiauth none (some contextCanceled)) canceledCtx (some session1)
          "org/repo1" "pipe" permView [] ()).trace, call.ctx = canceledCtx)
    ∧ (getRepoCheckPipelineAccess (constController (some repo1, none))
          (constApiauth none (some contextCanceled)) canceledCtx (some session1)
          "org/repo1" "pipe" permView [] ()).trace.map Call.step
        = [Step.FindByRef, Step.CheckRepoState, Step.CheckPipeline] :=
  ⟨rfl,
    (cancellation_is_delegated
      (constController (none, some (GoError.wrapError "find: context canceled"
        contextCanceled)))
      (constApiauth none none) canceledCtx (some session1) "org/repo1" "pipe" permView
      [] ()).2.2.1 contextCanceled _ rfl (by simp [errorsIs, contextCanceled]),
    (cancellation_is_delegated (constController (some repo1, none))
      (constApiauth (some contextCanceled) none) canceledCtx (some session1) "org/repo1"
      "pipe" permView [] ()).2.2.2.1 contextCanceled _ _ _ rfl rfl
      (by simp [errorsIs, contextCanceled]),
    (cancellation_is_delegated (constController (some repo1, none))
      (constApiauth none (some contextCanceled)) canceledCtx (some session1) "org/repo1"
      "pipe" permView [] ()).2.2.2.2.1 contextCanceled _ _ _ _ rfl rfl rfl
      (by simp [errorsIs, contextCanceled]),
    (cancellation_is_delegated (constController (some repo1, none))
      (constApiauth none (some contextCanceled)) canceledCtx (some session1) "org/repo1"
      "pipe" permView [] ()).1,
    rfl⟩

/-! ## Arguments handed to the collaborators -/

/-- C9: in every run, each call of `CheckRepoState` receives the caller's context and
session, the repository pointer `FindByRef` returned, the caller's permission and the
caller's allowed-states list unchanged, and each call of `CheckPipeline` receives the
caller's context, the controller's authorizer, the same session, the `Path` field of the
resolved repository, the caller's pipeline identifier and the same permission. -/
theorem arguments_pass_through {σ : Type} (c : Controller σ) (apiauth : Apiauth σ)
    (ctx : Context) (session : Option Session) (repoRef pipelineIdentifier : String)
    (reqPermission : Permission) (allowedRepoStates : List RepoState) (w0 : σ) :
    (∀ call ∈ (getRepoCheckPipelineAccess c apiauth ctx session repoRef pipelineIdentifier
          reqPermission allowedRepoStates w0).trace,
        ∀ ctxArg sessionArg repoArg permArg statesArg ret,
          call = Call.CheckRepoState ctxArg sessionArg repoArg permArg statesArg ret →
            ctxArg = ctx ∧ sessionArg = session
            ∧ repoArg = (c.repoFinder.FindByRef ctx repoRef w0).1.1
            ∧ permArg = reqPermission ∧ statesArg = allowedRepoStates)
    ∧ (∀ call ∈ (getRepoCheckPipelineAccess c apiauth ctx session repoRef pipelineIdentifier
          reqPermission allowedRepoStates w0).trace,
        ∀ ctxArg authArg sessionArg pathArg pidArg permArg ret,
          call = Call.CheckPipeline ctxArg authArg sessionArg pathArg pidArg permArg ret →
            ctxArg = ctx ∧ authArg = c.authorizer ∧ sessionArg = session
            ∧ (∃ r, (c.repoFinder.FindByRef ctx repoRef w0).1.1 = some r ∧ pathArg = r.Path)
            ∧ pidArg = pipelineIdentifier ∧ permArg = reqPermission) := by
  rcases run_cases c apiauth ctx session repoRef pipelineIdentifier reqPermission
      allowedRepoStates w0 with
    ⟨repo, e, w1, hfind, hrun⟩ | ⟨repo, e, w1, w2, hfind, _, hrun⟩
    | ⟨w1, w2, hfind, _, hrun⟩
    | ⟨r, e, w1, w2, w3, hfind, _, _, hrun⟩ | ⟨r, w1, w2, w3, hfind, _, _, hrun⟩
  all_goals
    rw [hrun, hfind]
    constructor
    all_goals
      intro call hcall
      simp only [List.mem_cons, List.mem_singleton, List.not_mem_nil, or_false] at hcall
      intros
      subst_vars
      simp_all

/-- A run that reaches both checks, for a repository looked up by the reference "7" whose
path is "org/repo1": `CheckRepoState` is called with the caller's one-element state list
and the resolved repository, and `CheckPipeline` with the path "org/repo1", not with the
reference "7". -/
theorem arguments_pass_through_witness :
    (getRepoCheckPipelineAccess (constController (some repo1, none)) (constApiauth none none)
        liveCtx (some session1) "7" "pipe" permView [⟨"active"⟩] ()).trace
      = [Call.FindByRef liveCtx "7" (some repo1, none),
          Call.CheckRepoState liveCtx (some session1) (some repo1) permView [⟨"active"⟩] none,
          Call.CheckPipeline liveCtx ⟨2⟩ (some session1) "org/repo1" "pipe" permView none]
    ∧ (liveCtx = liveCtx ∧ some session1 = some session1
        ∧ some repo1 = ((constController (some repo1, none)).repoFinder.FindByRef liveCtx
            "7" ()).1.1
        ∧ permView = permView ∧ [(⟨"active"⟩ : RepoState)] = [⟨"active"⟩])
    ∧ (liveCtx = liveCtx ∧ (⟨2⟩ : Handle) = (constController (some repo1, none)).authorizer
        ∧ some session1 = some session1
        ∧ (∃ r, ((constController (some repo1, none)).repoFinder.FindByRef liveCtx
            "7" ()).1.1 = some r ∧ "org/repo1" = r.Path)
        ∧ "pipe" = "pipe" ∧ permView = permView) :=
  ⟨rfl,
    (arguments_pass_through (constController (some repo1, none)) (constApiauth none none)
      liveCtx (some session1) "7" "pipe" permView [⟨"active"⟩] ()).1
      (Call.CheckRepoState liveCtx (some session1) (some repo1) permView [⟨"active"⟩] none)
      (List.mem_cons_of_mem _ (List.mem_cons_self _ _)) _ _ _ _ _ _ rfl,
    (arguments_pass_through (constController (some repo1, none)) (constApiauth none none)
      liveCtx (some session1) "7" "pipe" permView [⟨"active"⟩] ()).2
      (Call.CheckPipeline liveCtx ⟨2⟩ (some session1) "org/repo1" "pipe" permView none)
      (List.mem_cons_of_mem _ (List.mem_cons_of_mem _ (List.mem_cons_self _ _)))
      _ _ _ _ _ _ _ rfl⟩

/-! ## Cause preservation -/

/-- C10: when `FindByRef` fails with error `e`, the returned error has the message
"failed to find repo by ref: " followed by the message of `e`, and unwrapping it yields
`e`; when `CheckPipeline` fails with error `e`, the returned error has the message
"failed to authorize: " followed by the message of `e`, and unwrapping it yields `e`; when
`CheckRepoState` fails with error `e`, the returned error is `e` itself. Hence in every
run that returns an error, the error of the last collaborator call is non-nil and
`errors.Is` finds it in the returned error. -/
theorem cause_preserved {σ : Type} (c : Controller σ) (apiauth : Apiauth σ)
    (ctx : Context) (session : Option Session) (repoRef pipelineIdentifier : String)
    (reqPermission : Permission) (allowedRepoStates : List RepoState) (w0 : σ) :
    (∀ e, (c.repoFinder.FindByRef ctx repoRef w0).1.2 = some e →
      ∃ g, (getRepoCheckPipelineAccess c apiauth ctx session repoRef pipelineIdentifier
            reqPermission allowedRepoStates w0).outcome = Outcome.returned (none, some g)
        ∧ g.Error = "failed to find repo by ref: " ++ e.Error
        ∧ g.Unwrap = some e ∧ errorsIs g e = true)
    ∧ (∀ repo w1 e, c.repoFinder.FindByRef ctx repoRef w0 = ((repo, none), w1) →
      (apiauth.CheckRepoState ctx session repo reqPermission allowedRepoStates w1).1
        = some e →
      (getRepoCheckPipelineAccess c apiauth ctx session repoRef pipelineIdentifier
          reqPermission allowedRepoStates w0).outcome = Outcome.returned (none, some e)
        ∧ errorsIs e e = true)
    ∧ (∀ r w1 w2 e, c.repoFinder.FindByRef ctx repoRef w0 = ((some r, none), w1) →
      apiauth.CheckRepoState ctx session (some r) reqPermission allowedRepoStates w1
        = (none, w2) →
      (apiauth.CheckPipeline ctx c.authorizer session r.Path pipelineIdentifier
        reqPermission w2).1 = some e →
      ∃ g, (getRepoCheckPipelineAccess c apiauth ctx session repoRef pipelineIdentifier
            reqPermission allowedRepoStates w0).outcome = Outcome.returned (none, some g)
        ∧ g.Error = "failed to authorize: " ++ e.Error
        ∧ g.Unwrap = some e ∧ errorsIs g e = true)
    ∧ (∀ p g, (getRepoCheckPipelineAccess c apiauth ctx session repoRef pipelineIdentifier
          reqPermission allowedRepoStates w0).outcome = Outcome.returned (p, some g) →
      ∃ e, (getRepoCheckPipelineAccess c apiauth ctx session repoRef pipelineIdentifier
            reqPermission allowedRepoStates w0).trace.getLast?.bind Call.err = some e
        ∧ errorsIs g e = true) := by
  rcases run_cases c apiauth ctx session repoRef pipelineIdentifier reqPermission
      allowedRepoStates w0 with
    ⟨repo, e, w1, hfind, hrun⟩ | ⟨repo, e, w1, w2, hfind, hstate, hrun⟩
    | ⟨w1, w2, hfind, hstate, hrun⟩
    | ⟨r, e, w1, w2, w3, hfind, hstate, hauth, hrun⟩
    | ⟨r, w1, w2, w3, hfind, hstate, hauth, hrun⟩
  · rw [hrun, hfind]
    refine ⟨?_, ?_, ?_, ?_⟩
    · intro e1 h1
      simp only [Option.some.injEq] at h1
      subst h1
      exact ⟨_, rfl, rfl, rfl, errorsIs_fmtErrorfW _ _ _ (errorsIs_self _)⟩
    · intro repo1 w e1 h1
      cases h1
    · intro r1 w w2 e1 h1
      cases h1
    · intro p g h
      cases h
      exact ⟨e, rfl, errorsIs_fmtErrorfW _ _ _ (errorsIs_self _)⟩
  · rw [hrun, hfind]
    refine ⟨?_, ?_, ?_, ?_⟩
    · intro e1 h1
      cases h1
    · intro repo1 w e1 h1 h2
      cases h1
      rw [hstate] at h2
      simp only [Option.some.injEq] at h2
      subst h2
      exact ⟨rfl, errorsIs_self _⟩
    · intro r1 w w2 e1 h1 h2
      cases h1
      rw [hstate] at h2
      cases h2
    · intro p g h
      cases h
      exact ⟨e, rfl, errorsIs_self _⟩
  · rw [hrun, hfind]
    refine ⟨?_, ?_, ?_, ?_⟩
    · intro e1 h1
      cases h1
    · intro repo1 w e1 h1 h2
      cases h1
      rw [hstate] at h2
      cases h2
    · intro r1 w w2 e1 h1
      cases h1
    · intro p g h
      cases h
  · rw [hrun, hfind]
    refine ⟨?_, ?_, ?_, ?_⟩
    · intro e1 h1
      cases h1
    · intro repo1 w e1 h1 h2
      cases h1
      rw [hstate] at h2
      cases h2
    · intro r1 w w2' e1 h1 h2 h3
      cases h1
      rw [hstate] at h2
      cases h2
      rw [hauth] at h3
      simp only [Option.some.injEq] at h3
      subst h3
      exact ⟨_, rfl, rfl, rfl, errorsIs_fmtErrorfW _ _ _ (errorsIs_self _)⟩
    · intro p g h
      cases h
      exact ⟨e, rfl, errorsIs_fmtErrorfW _ _ _ (errorsIs_self _)⟩
  · rw [hrun, hfind]
    refine ⟨?_, ?_, ?_, ?_⟩
    · intro e1 h1
      cases h1
    · intro repo1 w e1 h1 h2
      cases h1
      rw [hstate] at h2
      cases h2
    · intro r1 w w2' e1 h1 h2 h3
      cases h1
      rw [hstate] at h2
      cases h2
      rw [hauth] at h3
      cases h3
    · intro p g h
      cases h

/-- The three failures at concrete collaborators: a resolver error "not found", a state
checker error "repository archived", an authorizer error "forbidden". -/
theorem cause_preserved_witness :
    (∃ g, (getRepoCheckPipelineAccess
          (constController (none, some (GoError.new 10 "not found"))) (constApiauth none none)
          liveCtx (some session1) "missing/repo" "pipe" permView [] ()).outcome
        = Outcome.returned (none, some g)
      ∧ g.Error = "failed to find repo by ref: " ++ (GoError.new 10 "not found").Error
      ∧ g.Unwrap = some (GoError.new 10 "not found")
      ∧ errorsIs g (GoError.new 10 "not found") = true)
    ∧ ((getRepoCheckPipelineAccess (constController (some repo1, none))
          (constApiauth (some (GoError.new 20 "repository archived")) none) liveCtx
          (some session1) "org/repo1" "pipe" permView [] ()).outcome
        = Outcome.returned (none, some (GoError.new 20 "repository archived"))
      ∧ errorsIs (GoError.new 20 "repository archived")
          (GoError.new 20 "repository archived") = true)
    ∧ (∃ g, (getRepoCheckPipelineAccess (constController (some repo1, none))
          (constApiauth none (some (GoError.new 30 "forbidden"))) liveCtx (some session1)
          "org/repo1" "pipe" permView [] ()).outcome = Outcome.returned (none, some g)
      ∧ g.Error = "failed to authorize: " ++ (GoError.new 30 "forbidden").Error
      ∧ g.Unwrap = some (GoError.new 30 "forbidden")
      ∧ errorsIs g (GoError.new 30 "forbidden") = true) :=
  ⟨(cause_preserved (constController (none, some (GoError.new 10 "not found")))
      (constApiauth none none) liveCtx (some session1) "missing/repo" "pipe" permView
      [] ()).1 _ rfl,
    (cause_preserved (constController (some repo1, none))
      (constApiauth (some (GoError.new 20 "repository archived")) none) liveCtx
      (some session1) "org/repo1" "pipe" permView [] ()).2.1 _ _ _ rfl rfl,
    (cause_preserved (constController (some repo1, none))
      (constApiauth none (some (GoError.new 30 "forbidden"))) liveCtx (some session1)
      "org/repo1" "pipe" permView [] ()).2.2.1 _ _ _ _ rfl rfl rfl⟩

end Execution
